import Mathlib

/-!
Verification of the Solana DEX excerpt: shallow embedding of the swap
handlers (`src/programs/dex/src/instructions/swap.rs`,
`src/programs/dex/src/instructions/v2/two_hop_swap.rs`), the protocol-fee
collection handler (`src/programs/dex/src/instructions/v2/collect_protocol_fees.rs`)
and the fee-tier state methods (`src/programs/dex/src/state/fee_tier.rs`).

Handlers are embedded as total functions into `Except DexError σ`: an
`Except.error` return models the on-chain abort (every account mutation of
the invocation is rolled back), and the settled state exists only in the
`Except.ok` payload, so "fails before any pool mutation or token movement"
is expressed by the handler returning `Except.error` for *every* settlement
function, i.e. the outcome is independent of the settlement parameter.

Collaborators whose code is not part of the excerpt (the swap engine,
`swap_with_transfer_fee_extension`, `calculate_transfer_fee_excluded_amount`,
`update_and_two_hop_swap_pool_v2`, `transfer_from_vault_to_owner_v2`,
`Pool`, `MAX_FEE_RATE`) are either abstracted as function parameters (the
swap engine, settlement) or modelled from the spec, as marked on each
definition.
-/

/-- The error codes of `errors::ErrorCode` that the embedded handlers can
raise, plus `other` for errors propagated from collaborators the excerpt
does not define (account loads, remaining-accounts parsing, timestamp
conversion, token transfers). -/
inductive DexError : Type where
  | DuplicateTwoHopPool : DexError
  | InvalidIntermediaryMint : DexError
  | IntermediateTokenAmountMismatch : DexError
  | AmountOutBelowMinimum : DexError
  | AmountInAboveMaximum : DexError
  | FeeRateMaxExceeded : DexError
  | other : Nat → DexError
deriving DecidableEq, Repr

/-- Modelled from the spec (§3 SwapResult): the two gross vault-side token
amounts of one swap computation. The price/liquidity/fee fields of the
source's `PostSwapUpdate` are not read by any claim and are omitted. -/
structure PostSwapUpdate : Type where
  amount_a : Nat
  amount_b : Nat
deriving DecidableEq, Repr

/-- Modelled from the spec (§6 token transfer interface): the mint data the
handlers read — its address and its fee-on-transfer rate (parts per 10000;
0 for an asset with no transfer fee). -/
structure MintInfo : Type where
  key : Nat
  transfer_fee_bps : Nat
deriving DecidableEq, Repr

/-- Modelled from the spec: the companion pure query
`transfer_fee_excluded_amount(mint, gross_amount) -> net_amount` (§6), the
net amount received after the fee-on-transfer deduction (a 1% fee maps a
gross 100 to a net 99). The source's fallible wrapper never fails on the
inputs the handlers produce, so the model is total. -/
def calculate_transfer_fee_excluded_amount (mint : MintInfo) (gross : Nat) : Nat :=
  gross - gross * mint.transfer_fee_bps / 10000

/-- Modelled from the spec (§3): a TickArray's content is opaque to every
claim; only presence or absence in the sequence matters. -/
structure TickArray : Type where
  data : Nat
deriving DecidableEq, Repr

/-- The call-scoped view `SwapTickSequence::new(first, second, third)`: the
first array is mandatory, the other two optional (spec §3). -/
structure SwapTickSequence : Type where
  arr0 : TickArray
  arr1 : Option TickArray
  arr2 : Option TickArray
deriving DecidableEq, Repr

/-- Modelled from the spec (§3 Pool): the Pool fields the embedded handlers
read (identifiers and the protocol-fee-owed counters). -/
structure Pool : Type where
  key : Nat
  token_mint_a : Nat
  token_mint_b : Nat
  protocol_fee_owed_a : Nat
  protocol_fee_owed_b : Nat
deriving DecidableEq, Repr

/-- Modelled from the spec (§4.5): `Pool::reset_protocol_fees_owed` sets
both owed counters to zero. -/
def Pool.reset_protocol_fees_owed (p : Pool) : Pool :=
  { p with protocol_fee_owed_a := 0, protocol_fee_owed_b := 0 }

/-- `src/programs/dex/src/state/fee_tier.rs`: the `FeeTier` account. -/
structure FeeTier : Type where
  pools_config : Nat
  tick_spacing : Nat
  default_fee_rate : Nat
deriving DecidableEq, Repr

/-- `FeeTier::update_default_fee_rate` (fee_tier.rs lines 27-34). The Rust
method mutates `&mut self` and returns a `Result`; the embedding returns the
post-call struct together with the result. `MAX_FEE_RATE` lives in the
excluded `math` module, so it is a parameter here. -/
def FeeTier.update_default_fee_rate (MAX_FEE_RATE : Nat) (ft : FeeTier)
    (default_fee_rate : Nat) : FeeTier × Except DexError Unit :=
  if default_fee_rate > MAX_FEE_RATE then
    (ft, Except.error DexError.FeeRateMaxExceeded)
  else
    ({ ft with default_fee_rate := default_fee_rate }, Except.ok ())

/-- `FeeTier::initialize` (fee_tier.rs lines 15-25): assigns `pools_config`
and `tick_spacing`, then calls `update_default_fee_rate` and propagates its
result with `?`. The struct mutations made before the failing call persist,
exactly as on the Rust `&mut self`. -/
def FeeTier.init (MAX_FEE_RATE : Nat) (ft : FeeTier)
    (pools_config tick_spacing default_fee_rate : Nat) : FeeTier × Except DexError Unit :=
  let ft1 : FeeTier := { ft with pools_config := pools_config, tick_spacing := tick_spacing }
  FeeTier.update_default_fee_rate MAX_FEE_RATE ft1 default_fee_rate

/-- C8: `FeeTier::update_default_fee_rate` (and hence `FeeTier::initialize`,
which calls it) returns `FeeRateMaxExceeded` exactly when the supplied rate
exceeds `MAX_FEE_RATE`, and on success the stored `default_fee_rate` equals
the supplied value. -/
theorem fee_tier_update_default_fee_rate_max_check (MAX_FEE_RATE : Nat) (ft : FeeTier)
    (pools_config tick_spacing default_fee_rate : Nat) :
    ((FeeTier.update_default_fee_rate MAX_FEE_RATE ft default_fee_rate).2
        = Except.error DexError.FeeRateMaxExceeded ↔ default_fee_rate > MAX_FEE_RATE)
    ∧ (default_fee_rate ≤ MAX_FEE_RATE →
        (FeeTier.update_default_fee_rate MAX_FEE_RATE ft default_fee_rate).2 = Except.ok ()
        ∧ (FeeTier.update_default_fee_rate MAX_FEE_RATE ft default_fee_rate).1.default_fee_rate
            = default_fee_rate)
    ∧ ((FeeTier.init MAX_FEE_RATE ft pools_config tick_spacing default_fee_rate).2
        = Except.error DexError.FeeRateMaxExceeded ↔ default_fee_rate > MAX_FEE_RATE)
    ∧ (default_fee_rate ≤ MAX_FEE_RATE →
        (FeeTier.init MAX_FEE_RATE ft pools_config tick_spacing default_fee_rate).2 = Except.ok ()
        ∧ (FeeTier.init MAX_FEE_RATE ft pools_config tick_spacing
            default_fee_rate).1.default_fee_rate = default_fee_rate) := by
  unfold FeeTier.init FeeTier.update_default_fee_rate
  by_cases h : default_fee_rate > MAX_FEE_RATE <;>
    simp [h, Nat.not_lt.mpr, Nat.lt_irrefl]

/-- Witness for C8 at `MAX_FEE_RATE = 10000`, rate `3000` (in range). -/
theorem fee_tier_update_default_fee_rate_max_check_witness :
    (3000 ≤ 10000
      ∧ (FeeTier.update_default_fee_rate 10000 ⟨0, 0, 0⟩ 3000).2 = Except.ok ()
      ∧ (FeeTier.update_default_fee_rate 10000 ⟨0, 0, 0⟩ 3000).1.default_fee_rate = 3000)
    ∧ ((FeeTier.init 10000 ⟨0, 0, 0⟩ 7 64 20000).2
        = Except.error DexError.FeeRateMaxExceeded ↔ 20000 > 10000) := by
  have h := fee_tier_update_default_fee_rate_max_check 10000 ⟨0, 0, 0⟩ 7 64 3000
  have h2 := fee_tier_update_default_fee_rate_max_check 10000 ⟨0, 0, 0⟩ 7 64 20000
  exact ⟨⟨by decide, h.2.1 (by decide)⟩, h2.2.2.1⟩

/-- C10: `FeeTier::initialize` is not atomic on its error path: with
`default_fee_rate > MAX_FEE_RATE` it returns `FeeRateMaxExceeded`, but the
returned struct already carries the new `pools_config` and `tick_spacing`
while `default_fee_rate` is left at its previous value. -/
theorem fee_tier_init_partial_write_on_error (MAX_FEE_RATE : Nat) (ft : FeeTier)
    (pools_config tick_spacing default_fee_rate : Nat)
    (h : default_fee_rate > MAX_FEE_RATE) :
    FeeTier.init MAX_FEE_RATE ft pools_config tick_spacing default_fee_rate
      = (⟨pools_config, tick_spacing, ft.default_fee_rate⟩,
          Except.error DexError.FeeRateMaxExceeded) := by
  unfold FeeTier.init FeeTier.update_default_fee_rate
  simp [h]

/-- Witness for C10: rate 20000 over a maximum of 10000 overwrites
`pools_config` and `tick_spacing` but not `default_fee_rate`. -/
theorem fee_tier_init_partial_write_on_error_witness :
    FeeTier.init 10000 ⟨1, 2, 3⟩ 7 64 20000
      = (⟨7, 64, 3⟩, Except.error DexError.FeeRateMaxExceeded) :=
  fee_tier_init_partial_write_on_error 10000 ⟨1, 2, 3⟩ 7 64 20000 (by decide)

/-- The token-account balances touched by protocol-fee collection: the
pool's two vaults and the two destination accounts, together with the pool
record itself. -/
structure CollectState : Type where
  pool : Pool
  vault_a : Nat
  vault_b : Nat
  dest_a : Nat
  dest_b : Nat
deriving DecidableEq, Repr

/-- Modelled from the spec (§4.5, §6): `transfer_from_vault_to_owner_v2`
moves `amount` out of the vault through the transfer-hook-aware path and
credits the destination with the transfer-fee-excluded amount; it fails
when the vault balance is insufficient. Returns the new (vault, destination)
balances. -/
def transfer_from_vault_to_owner_v2 (mint : MintInfo) (vault dest amount : Nat) :
    Except DexError (Nat × Nat) :=
  if vault < amount then Except.error (DexError.other 1)
  else Except.ok (vault - amount, dest + calculate_transfer_fee_excluded_amount mint amount)

/-- `collect_protocol_fees.rs` handler (lines 44-82): parse remaining
accounts, transfer `protocol_fee_owed_a` from vault A, transfer
`protocol_fee_owed_b` from vault B (each `?`-propagated), then
`reset_protocol_fees_owed`. -/
def collect_protocol_fees_handler (mint_a mint_b : MintInfo)
    (parse : Except DexError Unit) (s : CollectState) : Except DexError CollectState :=
  match parse with
  | Except.error e => Except.error e
  | Except.ok () =>
    match transfer_from_vault_to_owner_v2 mint_a s.vault_a s.dest_a
        s.pool.protocol_fee_owed_a with
    | Except.error e => Except.error e
    | Except.ok (va, da) =>
      match transfer_from_vault_to_owner_v2 mint_b s.vault_b s.dest_b
          s.pool.protocol_fee_owed_b with
      | Except.error e => Except.error e
      | Except.ok (vb, db) =>
        Except.ok { pool := s.pool.reset_protocol_fees_owed,
                    vault_a := va, vault_b := vb, dest_a := da, dest_b := db }

/-- C7: a successful collection debits exactly `protocol_fee_owed_a` and
`protocol_fee_owed_b` from the vaults, credits the destinations with their
transfer-fee-excluded amounts, and leaves both owed counters at zero; a
repeated collection with no intervening swap returns the same state
(transfers zero); if either transfer fails the handler returns an error, so
no settled state (in particular no counter reset) is produced — the
embedding's `Except.error` return is the full on-chain rollback. -/
theorem collect_protocol_fees_atomic (mint_a mint_b : MintInfo) (s : CollectState) :
    (∀ s', collect_protocol_fees_handler mint_a mint_b (Except.ok ()) s = Except.ok s' →
      s'.pool.protocol_fee_owed_a = 0 ∧ s'.pool.protocol_fee_owed_b = 0
      ∧ s.vault_a = s'.vault_a + s.pool.protocol_fee_owed_a
      ∧ s.vault_b = s'.vault_b + s.pool.protocol_fee_owed_b
      ∧ s'.dest_a = s.dest_a + calculate_transfer_fee_excluded_amount mint_a
          s.pool.protocol_fee_owed_a
      ∧ s'.dest_b = s.dest_b + calculate_transfer_fee_excluded_amount mint_b
          s.pool.protocol_fee_owed_b
      ∧ collect_protocol_fees_handler mint_a mint_b (Except.ok ()) s' = Except.ok s')
    ∧ ((s.vault_a < s.pool.protocol_fee_owed_a ∨ s.vault_b < s.pool.protocol_fee_owed_b) →
        ∃ e, collect_protocol_fees_handler mint_a mint_b (Except.ok ()) s
          = Except.error e) := by
  constructor
  · intro s' h
    unfold collect_protocol_fees_handler transfer_from_vault_to_owner_v2 at h
    by_cases ha : s.vault_a < s.pool.protocol_fee_owed_a
    · simp [ha] at h
    · by_cases hb : s.vault_b < s.pool.protocol_fee_owed_b
      · simp [ha, hb] at h
      · simp [ha, hb] at h
        subst h
        refine ⟨rfl, rfl,
          (by show s.vault_a = s.vault_a - s.pool.protocol_fee_owed_a
                + s.pool.protocol_fee_owed_a
              omega),
          (by show s.vault_b = s.vault_b - s.pool.protocol_fee_owed_b
                + s.pool.protocol_fee_owed_b
              omega),
          rfl, rfl, ?_⟩
        unfold collect_protocol_fees_handler transfer_from_vault_to_owner_v2
        simp [Pool.reset_protocol_fees_owed, calculate_transfer_fee_excluded_amount]
  · intro h
    unfold collect_protocol_fees_handler transfer_from_vault_to_owner_v2
    by_cases ha : s.vault_a < s.pool.protocol_fee_owed_a
    · exact ⟨DexError.other 1, by simp [ha]⟩
    · rcases h with h | h
      · exact absurd h ha
      · exact ⟨DexError.other 1, by simp [ha, h]⟩

/-- Witness for C7: a pool owing (5, 7) with vaults (100, 200), destinations
(0, 0) and fee-free mints collects to vaults (95, 193), destinations (5, 7),
counters zeroed. -/
theorem collect_protocol_fees_atomic_witness :
    collect_protocol_fees_handler ⟨10, 0⟩ ⟨20, 0⟩ (Except.ok ())
        ⟨⟨1, 10, 20, 5, 7⟩, 100, 200, 0, 0⟩
      = Except.ok ⟨⟨1, 10, 20, 0, 0⟩, 95, 193, 5, 7⟩
    ∧ (⟨⟨1, 10, 20, 0, 0⟩, 95, 193, 5, 7⟩ : CollectState).pool.protocol_fee_owed_a = 0 := by
  have h := (collect_protocol_fees_atomic ⟨10, 0⟩ ⟨20, 0⟩
      ⟨⟨1, 10, 20, 5, 7⟩, 100, 200, 0, 0⟩).1 ⟨⟨1, 10, 20, 0, 0⟩, 95, 193, 5, 7⟩ rfl
  exact ⟨rfl, h.1⟩

/-- The core swap engine (spec §4.2, `manager::swap_manager::swap`, outside
the excerpt), abstracted: pool snapshot, price limit and timestamp are fixed
for one invocation, leaving the tick sequence, the amount, the
`amount_specified_is_input` flag and the direction `a_to_b`. -/
abbrev SwapEngine : Type :=
  SwapTickSequence → Nat → Bool → Bool → Except DexError PostSwapUpdate

/-- swap.rs handler lines 70-82: the slippage enforcement block, verbatim.
Exact-in compares the opposite side against the minimum-out threshold;
exact-out compares the specified-side input against the maximum-in
threshold. -/
def swap_slippage_check (u : PostSwapUpdate) (other_amount_threshold : Nat)
    (amount_specified_is_input a_to_b : Bool) : Except DexError PostSwapUpdate :=
  if amount_specified_is_input then
    if (a_to_b = true ∧ other_amount_threshold > u.amount_b)
        ∨ (a_to_b = false ∧ other_amount_threshold > u.amount_a) then
      Except.error DexError.AmountOutBelowMinimum
    else
      Except.ok u
  else
    if (a_to_b = true ∧ other_amount_threshold < u.amount_a)
        ∨ (a_to_b = false ∧ other_amount_threshold < u.amount_b) then
      Except.error DexError.AmountInAboveMaximum
    else
      Except.ok u

/-- swap.rs handler (lines 42-82), up to settlement: timestamp conversion
(`to_timestamp_u64(...)?`, abstracted as `ts`), the tick sequence built from
the three loads (the first with `?`, the second and third with `.ok()`), the
core swap call, then the slippage block. -/
def swap_compute (engine : SwapEngine) (ts : Except DexError Unit)
    (load0 load1 load2 : Except DexError TickArray)
    (amount other_amount_threshold : Nat) (amount_specified_is_input a_to_b : Bool) :
    Except DexError PostSwapUpdate :=
  match ts with
  | Except.error e => Except.error e
  | Except.ok () =>
    match load0 with
    | Except.error e => Except.error e
    | Except.ok ta0 =>
      match engine ⟨ta0, load1.toOption, load2.toOption⟩ amount
          amount_specified_is_input a_to_b with
      | Except.error e => Except.error e
      | Except.ok u =>
        swap_slippage_check u other_amount_threshold amount_specified_is_input a_to_b

/-- swap.rs handler (lines 42-113): the computation above followed by
settlement (`update_and_swap_pool`, outside the excerpt, abstracted as
`settle`). The settled state only exists in the `Except.ok` payload. -/
def swap_handler {σ : Type} (settle : PostSwapUpdate → Except DexError σ)
    (engine : SwapEngine) (ts : Except DexError Unit)
    (load0 load1 load2 : Except DexError TickArray)
    (amount other_amount_threshold : Nat) (amount_specified_is_input a_to_b : Bool) :
    Except DexError σ :=
  match swap_compute engine ts load0 load1 load2 amount other_amount_threshold
      amount_specified_is_input a_to_b with
  | Except.error e => Except.error e
  | Except.ok u => settle u

/-- C5: single-leg slippage is enforced before settlement. With the engine's
result `u`: in exact-in mode the handler fails with `AmountOutBelowMinimum`
exactly when the opposite-side amount is below `other_amount_threshold`, and
the failure is independent of the settlement function (no pool state or
token balance is changed); in exact-out mode it fails with
`AmountInAboveMaximum` exactly when the specified-side input exceeds the
threshold; otherwise the computation succeeds, so the threshold is
satisfied on every accepted swap. -/
theorem swap_handler_slippage_enforced (engine : SwapEngine) (ts : Except DexError Unit)
    (load0 load1 load2 : Except DexError TickArray)
    (amount other_amount_threshold : Nat) (amount_specified_is_input a_to_b : Bool)
    (ta0 : TickArray) (u : PostSwapUpdate)
    (hts : ts = Except.ok ()) (hl : load0 = Except.ok ta0)
    (heng : engine ⟨ta0, load1.toOption, load2.toOption⟩ amount
        amount_specified_is_input a_to_b = Except.ok u) :
    (amount_specified_is_input = true →
      ((if a_to_b then u.amount_b else u.amount_a) < other_amount_threshold →
        ∀ (σ : Type) (settle : PostSwapUpdate → Except DexError σ),
          swap_handler settle engine ts load0 load1 load2 amount other_amount_threshold
              amount_specified_is_input a_to_b
            = Except.error DexError.AmountOutBelowMinimum)
      ∧ (swap_compute engine ts load0 load1 load2 amount other_amount_threshold
            amount_specified_is_input a_to_b
          = Except.error DexError.AmountOutBelowMinimum
          ↔ (if a_to_b then u.amount_b else u.amount_a) < other_amount_threshold)
      ∧ (other_amount_threshold ≤ (if a_to_b then u.amount_b else u.amount_a) →
          swap_compute engine ts load0 load1 load2 amount other_amount_threshold
              amount_specified_is_input a_to_b = Except.ok u))
    ∧ (amount_specified_is_input = false →
      ((if a_to_b then u.amount_a else u.amount_b) > other_amount_threshold →
        ∀ (σ : Type) (settle : PostSwapUpdate → Except DexError σ),
          swap_handler settle engine ts load0 load1 load2 amount other_amount_threshold
              amount_specified_is_input a_to_b
            = Except.error DexError.AmountInAboveMaximum)
      ∧ (swap_compute engine ts load0 load1 load2 amount other_amount_threshold
            amount_specified_is_input a_to_b
          = Except.error DexError.AmountInAboveMaximum
          ↔ (if a_to_b then u.amount_a else u.amount_b) > other_amount_threshold)
      ∧ ((if a_to_b then u.amount_a else u.amount_b) ≤ other_amount_threshold →
          swap_compute engine ts load0 load1 load2 amount other_amount_threshold
              amount_specified_is_input a_to_b = Except.ok u)) := by
  subst hts; subst hl
  have hc : swap_compute engine (Except.ok ()) (Except.ok ta0) load1 load2 amount
      other_amount_threshold amount_specified_is_input a_to_b
      = swap_slippage_check u other_amount_threshold amount_specified_is_input a_to_b := by
    simp only [swap_compute, heng]
  constructor
  · intro hin
    subst hin
    refine ⟨?_, ?_, ?_⟩
    · intro hlt σ settle
      unfold swap_handler
      rw [hc]
      unfold swap_slippage_check
      cases a_to_b <;> simp_all
    · rw [hc]
      unfold swap_slippage_check
      cases a_to_b <;> simp_all
    · intro hge
      rw [hc]
      unfold swap_slippage_check
      cases a_to_b <;> simp_all
  · intro hin
    subst hin
    refine ⟨?_, ?_, ?_⟩
    · intro hlt σ settle
      unfold swap_handler
      rw [hc]
      unfold swap_slippage_check
      cases a_to_b <;> simp_all
    · rw [hc]
      unfold swap_slippage_check
      cases a_to_b <;> simp_all
    · intro hge
      rw [hc]
      unfold swap_slippage_check
      cases a_to_b <;> simp_all

/-- Witness for C5: an engine returning `(a, b) = (10, 7)` on an exact-in
a→b swap with threshold 7 passes (7 ≤ 7); one returning `(3, 1)` against the
same threshold aborts with `AmountOutBelowMinimum` under any settlement. -/
theorem swap_handler_slippage_enforced_witness :
    swap_compute (fun _ _ _ _ => Except.ok ⟨10, 7⟩) (Except.ok ()) (Except.ok ⟨0⟩)
        (Except.error (DexError.other 2)) (Except.error (DexError.other 2)) 5 7 true true
      = Except.ok ⟨10, 7⟩
    ∧ swap_handler (fun upd => Except.ok upd) (fun _ _ _ _ => Except.ok ⟨3, 1⟩)
        (Except.ok ()) (Except.ok ⟨0⟩) (Except.error (DexError.other 2))
        (Except.error (DexError.other 2)) 5 7 true true
      = Except.error DexError.AmountOutBelowMinimum := by
  have h1 := (swap_handler_slippage_enforced (fun _ _ _ _ => Except.ok ⟨10, 7⟩)
      (Except.ok ()) (Except.ok ⟨0⟩) (Except.error (DexError.other 2))
      (Except.error (DexError.other 2)) 5 7 true true ⟨0⟩ ⟨10, 7⟩ rfl rfl rfl).1 rfl
  have h2 := (swap_handler_slippage_enforced (fun _ _ _ _ => Except.ok ⟨3, 1⟩)
      (Except.ok ()) (Except.ok ⟨0⟩) (Except.error (DexError.other 2))
      (Except.error (DexError.other 2)) 5 7 true true ⟨0⟩ ⟨3, 1⟩ rfl rfl rfl).1 rfl
  exact ⟨h1.2.2 (by decide), h2.1 (by decide) PostSwapUpdate (fun upd => Except.ok upd)⟩

/-- Modelled from the spec: `swap_with_transfer_fee_extension` (outside the
excerpt; spec §4.4, §6, §8 scenario). Its two mint parameters are the pool's
A-side and B-side mints, exactly as at the call sites in two_hop_swap.rs
(`if a_to_b { input } else { intermediate }` selects the A-side mint); the
input mint of the swap is the A mint when `a_to_b` and the B mint otherwise.
On exact-in the transfer-fee-excluded net of the given amount — not the
gross — is what is fed into the core swap computation (§8: "this net amount
— not the gross — is what is fed into leg two's swap computation"), while
the reported input-side amount stays the fee-included gross, so that the
cross-leg consistency check (§4.4, bit-for-bit) is measured on gross
amounts. On exact-out the engine is computed backward from the requested
vault-side output unchanged; the fee conversion for the intermediate hop is
done by the handler itself (two_hop_swap.rs lines 226-238). -/
def swap_with_transfer_fee_extension
    (engine : Nat → Bool → Bool → Except DexError PostSwapUpdate)
    (token_mint_a token_mint_b : MintInfo) (amount : Nat)
    (amount_specified_is_input a_to_b : Bool) : Except DexError PostSwapUpdate :=
  let input_mint := if a_to_b then token_mint_a else token_mint_b
  if amount_specified_is_input then
    match engine (calculate_transfer_fee_excluded_amount input_mint amount) true a_to_b with
    | Except.error e => Except.error e
    | Except.ok r =>
      Except.ok (if a_to_b then ⟨amount, r.amount_b⟩ else ⟨r.amount_a, amount⟩)
  else
    engine amount false a_to_b

/-- two_hop_swap.rs lines 263-267: the gross amount leg one reports leaving
its output side. -/
def swap_calc_one_output (a_to_b_one : Bool) (u : PostSwapUpdate) : Nat :=
  if a_to_b_one then u.amount_b else u.amount_a

/-- two_hop_swap.rs lines 268-272: the gross amount leg two reports entering
its input side. -/
def swap_calc_two_input (a_to_b_two : Bool) (u : PostSwapUpdate) : Nat :=
  if a_to_b_two then u.amount_a else u.amount_b

/-- two_hop_swap.rs lines 149-260: the two leg computations. Exact-in runs
leg one forward from the caller's amount and feeds its gross output-side
amount to leg two; exact-out runs leg two backward from the caller's amount,
converts its gross input-side amount to the transfer-fee-excluded net of the
intermediate mint, and runs leg one backward from that target. -/
def two_hop_swap_legs (engine_one engine_two : SwapEngine)
    (seq_one seq_two : SwapTickSequence)
    (mint_input mint_intermediate mint_output : MintInfo)
    (amount : Nat) (amount_specified_is_input a_to_b_one a_to_b_two : Bool) :
    Except DexError (PostSwapUpdate × PostSwapUpdate) :=
  if amount_specified_is_input then
    match swap_with_transfer_fee_extension (engine_one seq_one)
        (if a_to_b_one then mint_input else mint_intermediate)
        (if a_to_b_one then mint_intermediate else mint_input)
        amount amount_specified_is_input a_to_b_one with
    | Except.error e => Except.error e
    | Except.ok swap_calc_one =>
      let swap_two_input_amount :=
        if a_to_b_one then swap_calc_one.amount_b else swap_calc_one.amount_a
      match swap_with_transfer_fee_extension (engine_two seq_two)
          (if a_to_b_two then mint_intermediate else mint_output)
          (if a_to_b_two then mint_output else mint_intermediate)
          swap_two_input_amount amount_specified_is_input a_to_b_two with
      | Except.error e => Except.error e
      | Except.ok swap_calc_two => Except.ok (swap_calc_one, swap_calc_two)
  else
    match swap_with_transfer_fee_extension (engine_two seq_two)
        (if a_to_b_two then mint_intermediate else mint_output)
        (if a_to_b_two then mint_output else mint_intermediate)
        amount amount_specified_is_input a_to_b_two with
    | Except.error e => Except.error e
    | Except.ok swap_calc_two =>
      let swap_one_output_amount :=
        if a_to_b_two then
          calculate_transfer_fee_excluded_amount mint_intermediate swap_calc_two.amount_a
        else
          calculate_transfer_fee_excluded_amount mint_intermediate swap_calc_two.amount_b
      match swap_with_transfer_fee_extension (engine_one seq_one)
          (if a_to_b_one then mint_input else mint_intermediate)
          (if a_to_b_one then mint_intermediate else mint_input)
          swap_one_output_amount amount_specified_is_input a_to_b_one with
      | Except.error e => Except.error e
      | Except.ok swap_calc_one => Except.ok (swap_calc_one, swap_calc_two)

/-- two_hop_swap.rs lines 262-309: the cross-leg consistency check followed
by the far-end slippage check (exact-in: transfer-fee-excluded output of leg
two against the minimum; exact-out: leg one's input against the maximum). -/
def two_hop_check_and_slippage (mint_output : MintInfo)
    (swap_update_one swap_update_two : PostSwapUpdate)
    (other_amount_threshold : Nat)
    (amount_specified_is_input a_to_b_one a_to_b_two : Bool) :
    Except DexError (PostSwapUpdate × PostSwapUpdate) :=
  if swap_calc_one_output a_to_b_one swap_update_one
      ≠ swap_calc_two_input a_to_b_two swap_update_two then
    Except.error DexError.IntermediateTokenAmountMismatch
  else if amount_specified_is_input then
    if (if a_to_b_two then
          calculate_transfer_fee_excluded_amount mint_output swap_update_two.amount_b
        else
          calculate_transfer_fee_excluded_amount mint_output swap_update_two.amount_a)
        < other_amount_threshold then
      Except.error DexError.AmountOutBelowMinimum
    else
      Except.ok (swap_update_one, swap_update_two)
  else
    if (if a_to_b_one then swap_update_one.amount_a else swap_update_one.amount_b)
        > other_amount_threshold then
      Except.error DexError.AmountInAboveMaximum
    else
      Except.ok (swap_update_one, swap_update_two)

/-- two_hop_swap.rs handler (lines 96-309), up to settlement: timestamp
conversion, the duplicate-pool check, the intermediary-mint check, the
remaining-accounts parse, the two tick sequences (first load of each with
`?`, the rest with `.ok()`), the leg computations, the consistency check and
the slippage check. -/
def two_hop_swap_compute (engine_one engine_two : SwapEngine)
    (pool_one pool_two : Pool)
    (mint_input mint_intermediate mint_output : MintInfo)
    (ts parse : Except DexError Unit)
    (load_one_0 load_one_1 load_one_2 : Except DexError TickArray)
    (load_two_0 load_two_1 load_two_2 : Except DexError TickArray)
    (amount other_amount_threshold : Nat)
    (amount_specified_is_input a_to_b_one a_to_b_two : Bool) :
    Except DexError (PostSwapUpdate × PostSwapUpdate) :=
  match ts with
  | Except.error e => Except.error e
  | Except.ok () =>
    if pool_one.key = pool_two.key then
      Except.error DexError.DuplicateTwoHopPool
    else if (if a_to_b_one then pool_one.token_mint_b else pool_one.token_mint_a)
        ≠ (if a_to_b_two then pool_two.token_mint_a else pool_two.token_mint_b) then
      Except.error DexError.InvalidIntermediaryMint
    else
      match parse with
      | Except.error e => Except.error e
      | Except.ok () =>
        match load_one_0 with
        | Except.error e => Except.error e
        | Except.ok ta10 =>
          match load_two_0 with
          | Except.error e => Except.error e
          | Except.ok ta20 =>
            match two_hop_swap_legs engine_one engine_two
                ⟨ta10, load_one_1.toOption, load_one_2.toOption⟩
                ⟨ta20, load_two_1.toOption, load_two_2.toOption⟩
                mint_input mint_intermediate mint_output
                amount amount_specified_is_input a_to_b_one a_to_b_two with
            | Except.error e => Except.error e
            | Except.ok (u1, u2) =>
              two_hop_check_and_slippage mint_output u1 u2 other_amount_threshold
                amount_specified_is_input a_to_b_one a_to_b_two

/-- two_hop_swap.rs handler (lines 96-380): the computation above followed
by the single atomic two-pool settlement (`update_and_two_hop_swap_pool_v2`,
outside the excerpt, abstracted as `settle`). -/
def two_hop_swap_handler {σ : Type}
    (settle : PostSwapUpdate → PostSwapUpdate → Except DexError σ)
    (engine_one engine_two : SwapEngine) (pool_one pool_two : Pool)
    (mint_input mint_intermediate mint_output : MintInfo)
    (ts parse : Except DexError Unit)
    (load_one_0 load_one_1 load_one_2 : Except DexError TickArray)
    (load_two_0 load_two_1 load_two_2 : Except DexError TickArray)
    (amount other_amount_threshold : Nat)
    (amount_specified_is_input a_to_b_one a_to_b_two : Bool) : Except DexError σ :=
  match two_hop_swap_compute engine_one engine_two pool_one pool_two
      mint_input mint_intermediate mint_output ts parse
      load_one_0 load_one_1 load_one_2 load_two_0 load_two_1 load_two_2
      amount other_amount_threshold amount_specified_is_input a_to_b_one a_to_b_two with
  | Except.error e => Except.error e
  | Except.ok (u1, u2) => settle u1 u2

/-- The token movements of the two-hop settlement (spec §4.4): the three
transfers owner→vault-one, vault-one→vault-two, vault-two→owner, as
(debit, credit) amounts. -/
structure TwoHopSettled : Type where
  owner_input_debit : Nat
  vault_one_input_credit : Nat
  vault_one_intermediate_debit : Nat
  vault_two_intermediate_credit : Nat
  vault_two_output_debit : Nat
  owner_output_credit : Nat
deriving DecidableEq, Repr

/-- Modelled from the spec (§4.4 Settlement): `update_and_two_hop_swap_pool_v2`
(outside the excerpt) commits both pools and performs the three token
movements as one unit; the intermediate hop is a direct vault-to-vault
movement on which a fee-on-transfer asset still deducts its fee, so the
amount credited to vault two is the transfer-fee-excluded amount of the
amount debited from vault one, and likewise the owner receives the
fee-excluded output. -/
def update_and_two_hop_swap_pool_v2 (mint_input mint_intermediate mint_output : MintInfo)
    (a_to_b_one a_to_b_two : Bool) (u1 u2 : PostSwapUpdate) :
    Except DexError TwoHopSettled :=
  let one_in := if a_to_b_one then u1.amount_a else u1.amount_b
  let one_out := if a_to_b_one then u1.amount_b else u1.amount_a
  let two_out := if a_to_b_two then u2.amount_b else u2.amount_a
  Except.ok
    { owner_input_debit := one_in
      vault_one_input_credit := calculate_transfer_fee_excluded_amount mint_input one_in
      vault_one_intermediate_debit := one_out
      vault_two_intermediate_credit :=
        calculate_transfer_fee_excluded_amount mint_intermediate one_out
      vault_two_output_debit := two_out
      owner_output_credit := calculate_transfer_fee_excluded_amount mint_output two_out }


/-- Helper: the check-and-slippage block only succeeds with the pair it was
given, and only when the consistency check held. -/
theorem two_hop_check_and_slippage_ok_inv (mint_output : MintInfo)
    (u1 u2 : PostSwapUpdate) (thr : Nat) (is_input a1 a2 : Bool)
    (p : PostSwapUpdate × PostSwapUpdate)
    (h : two_hop_check_and_slippage mint_output u1 u2 thr is_input a1 a2 = Except.ok p) :
    p = (u1, u2) ∧ swap_calc_one_output a1 u1 = swap_calc_two_input a2 u2 := by
  unfold two_hop_check_and_slippage at h
  by_cases hne : swap_calc_one_output a1 u1 ≠ swap_calc_two_input a2 u2
  · simp [hne] at h
  · push_neg at hne
    rw [if_neg (by simpa using hne)] at h
    refine ⟨?_, hne⟩
    repeat' split at h
    all_goals simp_all

/-- Helper: a successful two-hop computation reports equal gross amounts on
the two sides of the intermediate hop. -/
theorem two_hop_compute_ok_inv (engine_one engine_two : SwapEngine)
    (pool_one pool_two : Pool) (mint_input mint_intermediate mint_output : MintInfo)
    (ts parse : Except DexError Unit)
    (l10 l11 l12 l20 l21 l22 : Except DexError TickArray)
    (amount thr : Nat) (is_input a1 a2 : Bool)
    (u1 u2 : PostSwapUpdate)
    (h : two_hop_swap_compute engine_one engine_two pool_one pool_two
        mint_input mint_intermediate mint_output ts parse
        l10 l11 l12 l20 l21 l22 amount thr is_input a1 a2 = Except.ok (u1, u2)) :
    swap_calc_one_output a1 u1 = swap_calc_two_input a2 u2 := by
  unfold two_hop_swap_compute at h
  cases ts with
  | error e => simp at h
  | ok t0 =>
    cases t0
    by_cases hk : pool_one.key = pool_two.key
    · simp [hk] at h
    · rw [if_neg hk] at h
      by_cases hm : (if a1 then pool_one.token_mint_b else pool_one.token_mint_a)
          ≠ (if a2 then pool_two.token_mint_a else pool_two.token_mint_b)
      · rw [if_pos hm] at h
        simp at h
      · rw [if_neg hm] at h
        cases parse with
        | error e => simp at h
        | ok t1 =>
          cases t1
          cases l10 with
          | error e => simp at h
          | ok ta10 =>
            cases l20 with
            | error e => simp at h
            | ok ta20 =>
              simp only [] at h
              cases hlegs : two_hop_swap_legs engine_one engine_two
                  ⟨ta10, l11.toOption, l12.toOption⟩ ⟨ta20, l21.toOption, l22.toOption⟩
                  mint_input mint_intermediate mint_output amount is_input a1 a2 with
              | error e => rw [hlegs] at h; simp at h
              | ok p =>
                rcases p with ⟨u1', u2'⟩
                rw [hlegs] at h
                simp only [] at h
                obtain ⟨hp', he⟩ := two_hop_check_and_slippage_ok_inv mint_output u1' u2'
                  thr is_input a1 a2 (u1, u2) h
                obtain ⟨h1, h2⟩ := Prod.mk.injEq u1 u2 u1' u2' ▸ hp'
                subst h1
                subst h2
                exact he

/-- Helper: under passing preliminary checks and successful leg
computations, the two-hop computation reduces to the check-and-slippage
block on the legs' results. -/
theorem two_hop_compute_unfold (engine_one engine_two : SwapEngine)
    (pool_one pool_two : Pool) (mint_input mint_intermediate mint_output : MintInfo)
    (ts parse : Except DexError Unit)
    (l10 l11 l12 l20 l21 l22 : Except DexError TickArray)
    (amount thr : Nat) (is_input a1 a2 : Bool)
    (ta10 ta20 : TickArray) (u1 u2 : PostSwapUpdate)
    (hts : ts = Except.ok ()) (hk : pool_one.key ≠ pool_two.key)
    (hm : (if a1 then pool_one.token_mint_b else pool_one.token_mint_a)
        = (if a2 then pool_two.token_mint_a else pool_two.token_mint_b))
    (hp : parse = Except.ok ())
    (h10 : l10 = Except.ok ta10) (h20 : l20 = Except.ok ta20)
    (hlegs : two_hop_swap_legs engine_one engine_two
        ⟨ta10, l11.toOption, l12.toOption⟩ ⟨ta20, l21.toOption, l22.toOption⟩
        mint_input mint_intermediate mint_output amount is_input a1 a2
        = Except.ok (u1, u2)) :
    two_hop_swap_compute engine_one engine_two pool_one pool_two
        mint_input mint_intermediate mint_output ts parse
        l10 l11 l12 l20 l21 l22 amount thr is_input a1 a2
      = two_hop_check_and_slippage mint_output u1 u2 thr is_input a1 a2 := by
  subst hts
  subst hp
  subst h10
  subst h20
  unfold two_hop_swap_compute
  rw [if_neg hk, if_neg (by simpa using hm)]
  simp only []
  rw [hlegs]

/-- C6: the two-hop handler rejects a route whose two legs reference the
same pool with `DuplicateTwoHopPool`, and (the pools being distinct, so the
check is reached) a route whose leg-one output mint differs from its leg-two
input mint with `InvalidIntermediaryMint`. Both conclusions hold for every
engine, every settlement function, every remaining-accounts parse result and
every tick-array load, so both checks decide the call before either swap
computation and before any state change. -/
theorem two_hop_precondition_checks {σ : Type}
    (settle : PostSwapUpdate → PostSwapUpdate → Except DexError σ)
    (engine_one engine_two : SwapEngine) (pool_one pool_two : Pool)
    (mint_input mint_intermediate mint_output : MintInfo)
    (ts parse : Except DexError Unit)
    (l10 l11 l12 l20 l21 l22 : Except DexError TickArray)
    (amount thr : Nat) (is_input a1 a2 : Bool)
    (hts : ts = Except.ok ()) :
    (pool_one.key = pool_two.key →
        two_hop_swap_handler settle engine_one engine_two pool_one pool_two
            mint_input mint_intermediate mint_output ts parse
            l10 l11 l12 l20 l21 l22 amount thr is_input a1 a2
          = Except.error DexError.DuplicateTwoHopPool)
    ∧ (pool_one.key ≠ pool_two.key →
        (if a1 then pool_one.token_mint_b else pool_one.token_mint_a)
          ≠ (if a2 then pool_two.token_mint_a else pool_two.token_mint_b) →
        two_hop_swap_handler settle engine_one engine_two pool_one pool_two
            mint_input mint_intermediate mint_output ts parse
            l10 l11 l12 l20 l21 l22 amount thr is_input a1 a2
          = Except.error DexError.InvalidIntermediaryMint) := by
  subst hts
  constructor
  · intro hk
    have hc : two_hop_swap_compute engine_one engine_two pool_one pool_two
        mint_input mint_intermediate mint_output (Except.ok ()) parse
        l10 l11 l12 l20 l21 l22 amount thr is_input a1 a2
        = Except.error DexError.DuplicateTwoHopPool := by
      unfold two_hop_swap_compute
      simp [hk]
    unfold two_hop_swap_handler
    rw [hc]
  · intro hk hm
    have hc : two_hop_swap_compute engine_one engine_two pool_one pool_two
        mint_input mint_intermediate mint_output (Except.ok ()) parse
        l10 l11 l12 l20 l21 l22 amount thr is_input a1 a2
        = Except.error DexError.InvalidIntermediaryMint := by
      unfold two_hop_swap_compute
      simp only []
      rw [if_neg hk, if_pos hm]
    unfold two_hop_swap_handler
    rw [hc]

/-- Witness for C6: a route using pool 1 twice aborts with
`DuplicateTwoHopPool`; distinct pools whose intermediate mints disagree
(20 vs 30) abort with `InvalidIntermediaryMint`. -/
theorem two_hop_precondition_checks_witness :
    two_hop_swap_handler (update_and_two_hop_swap_pool_v2 ⟨10, 0⟩ ⟨20, 0⟩ ⟨30, 0⟩ true true)
        (fun _ _ _ _ => Except.ok ⟨0, 0⟩) (fun _ _ _ _ => Except.ok ⟨0, 0⟩)
        ⟨1, 10, 20, 0, 0⟩ ⟨1, 10, 20, 0, 0⟩ ⟨10, 0⟩ ⟨20, 0⟩ ⟨30, 0⟩
        (Except.ok ()) (Except.ok ())
        (Except.ok ⟨0⟩) (Except.ok ⟨1⟩) (Except.ok ⟨2⟩)
        (Except.ok ⟨3⟩) (Except.ok ⟨4⟩) (Except.ok ⟨5⟩)
        100 0 true true true
      = Except.error DexError.DuplicateTwoHopPool
    ∧ two_hop_swap_handler (update_and_two_hop_swap_pool_v2 ⟨10, 0⟩ ⟨20, 0⟩ ⟨30, 0⟩ true true)
        (fun _ _ _ _ => Except.ok ⟨0, 0⟩) (fun _ _ _ _ => Except.ok ⟨0, 0⟩)
        ⟨1, 10, 20, 0, 0⟩ ⟨2, 30, 40, 0, 0⟩ ⟨10, 0⟩ ⟨20, 0⟩ ⟨30, 0⟩
        (Except.ok ()) (Except.ok ())
        (Except.ok ⟨0⟩) (Except.ok ⟨1⟩) (Except.ok ⟨2⟩)
        (Except.ok ⟨3⟩) (Except.ok ⟨4⟩) (Except.ok ⟨5⟩)
        100 0 true true true
      = Except.error DexError.InvalidIntermediaryMint := by
  refine ⟨(two_hop_precondition_checks
      (update_and_two_hop_swap_pool_v2 ⟨10, 0⟩ ⟨20, 0⟩ ⟨30, 0⟩ true true)
      (fun _ _ _ _ => Except.ok ⟨0, 0⟩) (fun _ _ _ _ => Except.ok ⟨0, 0⟩)
      ⟨1, 10, 20, 0, 0⟩ ⟨1, 10, 20, 0, 0⟩ ⟨10, 0⟩ ⟨20, 0⟩ ⟨30, 0⟩
      (Except.ok ()) (Except.ok ())
      (Except.ok ⟨0⟩) (Except.ok ⟨1⟩) (Except.ok ⟨2⟩)
      (Except.ok ⟨3⟩) (Except.ok ⟨4⟩) (Except.ok ⟨5⟩)
      100 0 true true true rfl).1 rfl,
    (two_hop_precondition_checks
      (update_and_two_hop_swap_pool_v2 ⟨10, 0⟩ ⟨20, 0⟩ ⟨30, 0⟩ true true)
      (fun _ _ _ _ => Except.ok ⟨0, 0⟩) (fun _ _ _ _ => Except.ok ⟨0, 0⟩)
      ⟨1, 10, 20, 0, 0⟩ ⟨2, 30, 40, 0, 0⟩ ⟨10, 0⟩ ⟨20, 0⟩ ⟨30, 0⟩
      (Except.ok ()) (Except.ok ())
      (Except.ok ⟨0⟩) (Except.ok ⟨1⟩) (Except.ok ⟨2⟩)
      (Except.ok ⟨3⟩) (Except.ok ⟨4⟩) (Except.ok ⟨5⟩)
      100 0 true true true rfl).2 (by decide) (by decide)⟩

/-- C1: every two-hop handler invocation that completes successfully did so
through a computation in which the gross amount leg one reports leaving its
output side equals, bit-for-bit, the gross amount leg two reports entering
its input side; and whenever the legs' computed amounts differ, the handler
fails with `IntermediateTokenAmountMismatch` under every settlement
function, i.e. before any pool mutation or token movement. -/
theorem two_hop_intermediate_amount_consistency
    (engine_one engine_two : SwapEngine) (pool_one pool_two : Pool)
    (mint_input mint_intermediate mint_output : MintInfo)
    (ts parse : Except DexError Unit)
    (l10 l11 l12 l20 l21 l22 : Except DexError TickArray)
    (amount thr : Nat) (is_input a1 a2 : Bool) :
    (∀ (σ : Type) (settle : PostSwapUpdate → PostSwapUpdate → Except DexError σ) (s : σ),
        two_hop_swap_handler settle engine_one engine_two pool_one pool_two
            mint_input mint_intermediate mint_output ts parse
            l10 l11 l12 l20 l21 l22 amount thr is_input a1 a2 = Except.ok s →
        ∃ u1 u2,
          two_hop_swap_compute engine_one engine_two pool_one pool_two
              mint_input mint_intermediate mint_output ts parse
              l10 l11 l12 l20 l21 l22 amount thr is_input a1 a2 = Except.ok (u1, u2)
          ∧ swap_calc_one_output a1 u1 = swap_calc_two_input a2 u2)
    ∧ (∀ (ta10 ta20 : TickArray) (u1 u2 : PostSwapUpdate),
        ts = Except.ok () → pool_one.key ≠ pool_two.key →
        (if a1 then pool_one.token_mint_b else pool_one.token_mint_a)
          = (if a2 then pool_two.token_mint_a else pool_two.token_mint_b) →
        parse = Except.ok () → l10 = Except.ok ta10 → l20 = Except.ok ta20 →
        two_hop_swap_legs engine_one engine_two
            ⟨ta10, l11.toOption, l12.toOption⟩ ⟨ta20, l21.toOption, l22.toOption⟩
            mint_input mint_intermediate mint_output amount is_input a1 a2
          = Except.ok (u1, u2) →
        swap_calc_one_output a1 u1 ≠ swap_calc_two_input a2 u2 →
        ∀ (σ : Type) (settle : PostSwapUpdate → PostSwapUpdate → Except DexError σ),
          two_hop_swap_handler settle engine_one engine_two pool_one pool_two
              mint_input mint_intermediate mint_output ts parse
              l10 l11 l12 l20 l21 l22 amount thr is_input a1 a2
            = Except.error DexError.IntermediateTokenAmountMismatch) := by
  constructor
  · intro σ settle s h
    unfold two_hop_swap_handler at h
    cases hcomp : two_hop_swap_compute engine_one engine_two pool_one pool_two
        mint_input mint_intermediate mint_output ts parse
        l10 l11 l12 l20 l21 l22 amount thr is_input a1 a2 with
    | error e => rw [hcomp] at h; simp at h
    | ok p =>
      rcases p with ⟨u1, u2⟩
      exact ⟨u1, u2, rfl, two_hop_compute_ok_inv engine_one engine_two pool_one pool_two
        mint_input mint_intermediate mint_output ts parse
        l10 l11 l12 l20 l21 l22 amount thr is_input a1 a2 u1 u2 hcomp⟩
  · intro ta10 ta20 u1 u2 hts hk hm hp h10 h20 hlegs hne σ settle
    have hc := two_hop_compute_unfold engine_one engine_two pool_one pool_two
      mint_input mint_intermediate mint_output ts parse l10 l11 l12 l20 l21 l22
      amount thr is_input a1 a2 ta10 ta20 u1 u2 hts hk hm hp h10 h20 hlegs
    unfold two_hop_swap_handler
    rw [hc]
    unfold two_hop_check_and_slippage
    rw [if_pos hne]

/-- Witness for C1's mismatch branch: an exact-out route whose intermediate
asset carries a 1% transfer fee makes leg one's computed gross output (495)
differ from leg two's computed gross input (500); the handler aborts with
`IntermediateTokenAmountMismatch` even under the full modelled settlement. -/
theorem two_hop_intermediate_amount_consistency_witness :
    two_hop_swap_handler (update_and_two_hop_swap_pool_v2 ⟨10, 0⟩ ⟨20, 100⟩ ⟨30, 0⟩ true true)
        (fun _ amt _ _ => Except.ok ⟨1000, amt⟩) (fun _ amt _ _ => Except.ok ⟨500, amt⟩)
        ⟨1, 10, 20, 0, 0⟩ ⟨2, 20, 30, 0, 0⟩ ⟨10, 0⟩ ⟨20, 100⟩ ⟨30, 0⟩
        (Except.ok ()) (Except.ok ())
        (Except.ok ⟨0⟩) (Except.ok ⟨1⟩) (Except.ok ⟨2⟩)
        (Except.ok ⟨3⟩) (Except.ok ⟨4⟩) (Except.ok ⟨5⟩)
        300 100000 false true true
      = Except.error DexError.IntermediateTokenAmountMismatch :=
  (two_hop_intermediate_amount_consistency
      (fun _ amt _ _ => Except.ok ⟨1000, amt⟩) (fun _ amt _ _ => Except.ok ⟨500, amt⟩)
      ⟨1, 10, 20, 0, 0⟩ ⟨2, 20, 30, 0, 0⟩ ⟨10, 0⟩ ⟨20, 100⟩ ⟨30, 0⟩
      (Except.ok ()) (Except.ok ())
      (Except.ok ⟨0⟩) (Except.ok ⟨1⟩) (Except.ok ⟨2⟩)
      (Except.ok ⟨3⟩) (Except.ok ⟨4⟩) (Except.ok ⟨5⟩)
      300 100000 false true true).2 ⟨0⟩ ⟨3⟩ ⟨1000, 495⟩ ⟨500, 300⟩
      rfl (by decide) (by decide) rfl rfl rfl rfl (by decide) TwoHopSettled
      (update_and_two_hop_swap_pool_v2 ⟨10, 0⟩ ⟨20, 100⟩ ⟨30, 0⟩ true true)

/-- Helper: under passing preliminary checks, the two-hop computation
reduces to the legs computation followed by the check-and-slippage block. -/
theorem two_hop_compute_eq_tail (engine_one engine_two : SwapEngine)
    (pool_one pool_two : Pool) (mint_input mint_intermediate mint_output : MintInfo)
    (ts parse : Except DexError Unit)
    (l10 l11 l12 l20 l21 l22 : Except DexError TickArray)
    (amount thr : Nat) (is_input a1 a2 : Bool)
    (ta10 ta20 : TickArray)
    (hts : ts = Except.ok ()) (hk : pool_one.key ≠ pool_two.key)
    (hm : (if a1 then pool_one.token_mint_b else pool_one.token_mint_a)
        = (if a2 then pool_two.token_mint_a else pool_two.token_mint_b))
    (hp : parse = Except.ok ())
    (h10 : l10 = Except.ok ta10) (h20 : l20 = Except.ok ta20) :
    two_hop_swap_compute engine_one engine_two pool_one pool_two
        mint_input mint_intermediate mint_output ts parse
        l10 l11 l12 l20 l21 l22 amount thr is_input a1 a2
      = (match two_hop_swap_legs engine_one engine_two
            ⟨ta10, l11.toOption, l12.toOption⟩ ⟨ta20, l21.toOption, l22.toOption⟩
            mint_input mint_intermediate mint_output amount is_input a1 a2 with
        | Except.error e => Except.error e
        | Except.ok (u1, u2) =>
          two_hop_check_and_slippage mint_output u1 u2 thr is_input a1 a2) := by
  subst hts
  subst hp
  subst h10
  subst h20
  unfold two_hop_swap_compute
  rw [if_neg hk, if_neg (by simpa using hm)]

/-- C4: two-hop slippage is measured at the far ends of the route and
enforced before settlement. Under passing preliminary checks, successful
legs and a passing consistency check: in exact-in mode the handler fails
with `AmountOutBelowMinimum` exactly when the transfer-fee-excluded net
output of leg two is below `other_amount_threshold`, under every settlement
function; in exact-out mode it fails with `AmountInAboveMaximum` exactly
when leg one's input amount exceeds the threshold; otherwise the
computation succeeds. -/
theorem two_hop_slippage_at_far_ends
    (engine_one engine_two : SwapEngine) (pool_one pool_two : Pool)
    (mint_input mint_intermediate mint_output : MintInfo)
    (ts parse : Except DexError Unit)
    (l10 l11 l12 l20 l21 l22 : Except DexError TickArray)
    (amount thr : Nat) (is_input a1 a2 : Bool)
    (ta10 ta20 : TickArray) (u1 u2 : PostSwapUpdate)
    (hts : ts = Except.ok ()) (hk : pool_one.key ≠ pool_two.key)
    (hm : (if a1 then pool_one.token_mint_b else pool_one.token_mint_a)
        = (if a2 then pool_two.token_mint_a else pool_two.token_mint_b))
    (hp : parse = Except.ok ())
    (h10 : l10 = Except.ok ta10) (h20 : l20 = Except.ok ta20)
    (hlegs : two_hop_swap_legs engine_one engine_two
        ⟨ta10, l11.toOption, l12.toOption⟩ ⟨ta20, l21.toOption, l22.toOption⟩
        mint_input mint_intermediate mint_output amount is_input a1 a2
        = Except.ok (u1, u2))
    (hcons : swap_calc_one_output a1 u1 = swap_calc_two_input a2 u2) :
    (is_input = true →
      ((if a2 then calculate_transfer_fee_excluded_amount mint_output u2.amount_b
          else calculate_transfer_fee_excluded_amount mint_output u2.amount_a) < thr →
        ∀ (σ : Type) (settle : PostSwapUpdate → PostSwapUpdate → Except DexError σ),
          two_hop_swap_handler settle engine_one engine_two pool_one pool_two
              mint_input mint_intermediate mint_output ts parse
              l10 l11 l12 l20 l21 l22 amount thr is_input a1 a2
            = Except.error DexError.AmountOutBelowMinimum)
      ∧ (two_hop_swap_compute engine_one engine_two pool_one pool_two
            mint_input mint_intermediate mint_output ts parse
            l10 l11 l12 l20 l21 l22 amount thr is_input a1 a2
          = Except.error DexError.AmountOutBelowMinimum
          ↔ (if a2 then calculate_transfer_fee_excluded_amount mint_output u2.amount_b
              else calculate_transfer_fee_excluded_amount mint_output u2.amount_a) < thr)
      ∧ (thr ≤ (if a2 then calculate_transfer_fee_excluded_amount mint_output u2.amount_b
            else calculate_transfer_fee_excluded_amount mint_output u2.amount_a) →
          two_hop_swap_compute engine_one engine_two pool_one pool_two
              mint_input mint_intermediate mint_output ts parse
              l10 l11 l12 l20 l21 l22 amount thr is_input a1 a2 = Except.ok (u1, u2)))
    ∧ (is_input = false →
      (((if a1 then u1.amount_a else u1.amount_b) > thr →
        ∀ (σ : Type) (settle : PostSwapUpdate → PostSwapUpdate → Except DexError σ),
          two_hop_swap_handler settle engine_one engine_two pool_one pool_two
              mint_input mint_intermediate mint_output ts parse
              l10 l11 l12 l20 l21 l22 amount thr is_input a1 a2
            = Except.error DexError.AmountInAboveMaximum)
      ∧ (two_hop_swap_compute engine_one engine_two pool_one pool_two
            mint_input mint_intermediate mint_output ts parse
            l10 l11 l12 l20 l21 l22 amount thr is_input a1 a2
          = Except.error DexError.AmountInAboveMaximum
          ↔ (if a1 then u1.amount_a else u1.amount_b) > thr)
      ∧ ((if a1 then u1.amount_a else u1.amount_b) ≤ thr →
          two_hop_swap_compute engine_one engine_two pool_one pool_two
              mint_input mint_intermediate mint_output ts parse
              l10 l11 l12 l20 l21 l22 amount thr is_input a1 a2 = Except.ok (u1, u2)))) := by
  have hc := two_hop_compute_unfold engine_one engine_two pool_one pool_two
    mint_input mint_intermediate mint_output ts parse l10 l11 l12 l20 l21 l22
    amount thr is_input a1 a2 ta10 ta20 u1 u2 hts hk hm hp h10 h20 hlegs
  constructor
  · intro hin
    subst hin
    have hc2 : two_hop_swap_compute engine_one engine_two pool_one pool_two
        mint_input mint_intermediate mint_output ts parse
        l10 l11 l12 l20 l21 l22 amount thr true a1 a2
        = if (if a2 then calculate_transfer_fee_excluded_amount mint_output u2.amount_b
              else calculate_transfer_fee_excluded_amount mint_output u2.amount_a) < thr
          then Except.error DexError.AmountOutBelowMinimum
          else Except.ok (u1, u2) := by
      rw [hc]
      unfold two_hop_check_and_slippage
      rw [if_neg (by simpa using hcons), if_pos rfl]
    refine ⟨?_, ?_, ?_⟩
    · intro hlt σ settle
      unfold two_hop_swap_handler
      rw [hc2, if_pos hlt]
    · rw [hc2]
      by_cases hlt : (if a2 then calculate_transfer_fee_excluded_amount mint_output u2.amount_b
          else calculate_transfer_fee_excluded_amount mint_output u2.amount_a) < thr
      · simp [hlt]
      · simp [hlt]
    · intro hge
      rw [hc2, if_neg (Nat.not_lt.mpr hge)]
  · intro hin
    subst hin
    have hc2 : two_hop_swap_compute engine_one engine_two pool_one pool_two
        mint_input mint_intermediate mint_output ts parse
        l10 l11 l12 l20 l21 l22 amount thr false a1 a2
        = if thr < (if a1 then u1.amount_a else u1.amount_b)
          then Except.error DexError.AmountInAboveMaximum
          else Except.ok (u1, u2) := by
      rw [hc]
      unfold two_hop_check_and_slippage
      rw [if_neg (by simpa using hcons), if_neg (by simp)]
    refine ⟨?_, ?_, ?_⟩
    · intro hlt σ settle
      unfold two_hop_swap_handler
      rw [hc2, if_pos hlt]
    · rw [hc2]
      by_cases hlt : thr < (if a1 then u1.amount_a else u1.amount_b)
      · simp [hlt]
      · simp [hlt]
    · intro hge
      rw [hc2, if_neg (Nat.not_lt.mpr hge)]

/-- Witness for C4: an exact-in route yielding a net output of 300 aborts
with `AmountOutBelowMinimum` against a threshold of 301 under the full
modelled settlement, and passes (computation returns the legs' results)
against a threshold of 300. -/
theorem two_hop_slippage_at_far_ends_witness :
    two_hop_swap_handler (update_and_two_hop_swap_pool_v2 ⟨10, 0⟩ ⟨20, 100⟩ ⟨30, 0⟩ true true)
        (fun _ _ _ _ => Except.ok ⟨999, 500⟩) (fun _ _ _ _ => Except.ok ⟨495, 300⟩)
        ⟨1, 10, 20, 0, 0⟩ ⟨2, 20, 30, 0, 0⟩ ⟨10, 0⟩ ⟨20, 100⟩ ⟨30, 0⟩
        (Except.ok ()) (Except.ok ())
        (Except.ok ⟨0⟩) (Except.ok ⟨1⟩) (Except.ok ⟨2⟩)
        (Except.ok ⟨3⟩) (Except.ok ⟨4⟩) (Except.ok ⟨5⟩)
        1000 301 true true true
      = Except.error DexError.AmountOutBelowMinimum
    ∧ two_hop_swap_compute
        (fun _ _ _ _ => Except.ok ⟨999, 500⟩) (fun _ _ _ _ => Except.ok ⟨495, 300⟩)
        ⟨1, 10, 20, 0, 0⟩ ⟨2, 20, 30, 0, 0⟩ ⟨10, 0⟩ ⟨20, 100⟩ ⟨30, 0⟩
        (Except.ok ()) (Except.ok ())
        (Except.ok ⟨0⟩) (Except.ok ⟨1⟩) (Except.ok ⟨2⟩)
        (Except.ok ⟨3⟩) (Except.ok ⟨4⟩) (Except.ok ⟨5⟩)
        1000 300 true true true
      = Except.ok (⟨1000, 500⟩, ⟨500, 300⟩) := by
  refine ⟨((two_hop_slippage_at_far_ends
      (fun _ _ _ _ => Except.ok ⟨999, 500⟩) (fun _ _ _ _ => Except.ok ⟨495, 300⟩)
      ⟨1, 10, 20, 0, 0⟩ ⟨2, 20, 30, 0, 0⟩ ⟨10, 0⟩ ⟨20, 100⟩ ⟨30, 0⟩
      (Except.ok ()) (Except.ok ())
      (Except.ok ⟨0⟩) (Except.ok ⟨1⟩) (Except.ok ⟨2⟩)
      (Except.ok ⟨3⟩) (Except.ok ⟨4⟩) (Except.ok ⟨5⟩)
      1000 301 true true true ⟨0⟩ ⟨3⟩ ⟨1000, 500⟩ ⟨500, 300⟩
      rfl (by decide) (by decide) rfl rfl rfl rfl (by decide)).1 rfl).1 (by decide)
      TwoHopSettled (update_and_two_hop_swap_pool_v2 ⟨10, 0⟩ ⟨20, 100⟩ ⟨30, 0⟩ true true),
    ((two_hop_slippage_at_far_ends
      (fun _ _ _ _ => Except.ok ⟨999, 500⟩) (fun _ _ _ _ => Except.ok ⟨495, 300⟩)
      ⟨1, 10, 20, 0, 0⟩ ⟨2, 20, 30, 0, 0⟩ ⟨10, 0⟩ ⟨20, 100⟩ ⟨30, 0⟩
      (Except.ok ()) (Except.ok ())
      (Except.ok ⟨0⟩) (Except.ok ⟨1⟩) (Except.ok ⟨2⟩)
      (Except.ok ⟨3⟩) (Except.ok ⟨4⟩) (Except.ok ⟨5⟩)
      1000 300 true true true ⟨0⟩ ⟨3⟩ ⟨1000, 500⟩ ⟨500, 300⟩
      rfl (by decide) (by decide) rfl rfl rfl rfl (by decide)).1 rfl).2.2 (by decide)⟩

/-- Helper: in exact-in mode, once leg one's wrapper result is fixed, the
legs computation is leg two's wrapper applied to leg one's gross output-side
amount. -/
theorem two_hop_swap_legs_exact_in (engine_one engine_two : SwapEngine)
    (seq_one seq_two : SwapTickSequence)
    (mint_input mint_intermediate mint_output : MintInfo)
    (amount : Nat) (a1 a2 : Bool) (u1 : PostSwapUpdate)
    (h1 : swap_with_transfer_fee_extension (engine_one seq_one)
        (if a1 then mint_input else mint_intermediate)
        (if a1 then mint_intermediate else mint_input)
        amount true a1 = Except.ok u1) :
    two_hop_swap_legs engine_one engine_two seq_one seq_two
        mint_input mint_intermediate mint_output amount true a1 a2
      = (match swap_with_transfer_fee_extension (engine_two seq_two)
            (if a2 then mint_intermediate else mint_output)
            (if a2 then mint_output else mint_intermediate)
            (swap_calc_one_output a1 u1) true a2 with
        | Except.error e => Except.error e
        | Except.ok u2 => Except.ok (u1, u2)) := by
  unfold two_hop_swap_legs
  rw [if_pos rfl]
  simp only []
  rw [h1]
  rfl

/-- Helper: in exact-out mode, once leg two's wrapper result is fixed, the
legs computation is leg one's wrapper applied to the transfer-fee-excluded
net of leg two's gross input-side amount. -/
theorem two_hop_swap_legs_exact_out (engine_one engine_two : SwapEngine)
    (seq_one seq_two : SwapTickSequence)
    (mint_input mint_intermediate mint_output : MintInfo)
    (amount : Nat) (a1 a2 : Bool) (u2 : PostSwapUpdate)
    (h2 : swap_with_transfer_fee_extension (engine_two seq_two)
        (if a2 then mint_intermediate else mint_output)
        (if a2 then mint_output else mint_intermediate)
        amount false a2 = Except.ok u2) :
    two_hop_swap_legs engine_one engine_two seq_one seq_two
        mint_input mint_intermediate mint_output amount false a1 a2
      = (match swap_with_transfer_fee_extension (engine_one seq_one)
            (if a1 then mint_input else mint_intermediate)
            (if a1 then mint_intermediate else mint_input)
            (calculate_transfer_fee_excluded_amount mint_intermediate
              (swap_calc_two_input a2 u2)) false a1 with
        | Except.error e => Except.error e
        | Except.ok u1 => Except.ok (u1, u2)) := by
  cases a2
  all_goals
    unfold two_hop_swap_legs
    rw [if_neg (by simp)]
    rw [h2]
    rfl

/-- C2: on an exact-in two-hop route whose leg one reported `u1`, the leg-two
swap computation is fed the transfer-fee-excluded net of leg one's gross
output — the handler's outcome depends on the leg-two engine only through
its value at that net amount — and under the modelled settlement the amount
credited to pool two's intermediate vault equals that same net amount. -/
theorem two_hop_exact_in_feeds_net_to_leg_two
    (engine_one : SwapEngine) (pool_one pool_two : Pool)
    (mint_input mint_intermediate mint_output : MintInfo)
    (ts parse : Except DexError Unit)
    (l10 l11 l12 l20 l21 l22 : Except DexError TickArray)
    (amount thr : Nat) (a1 a2 : Bool)
    (ta10 ta20 : TickArray) (u1 : PostSwapUpdate)
    (hts : ts = Except.ok ()) (hk : pool_one.key ≠ pool_two.key)
    (hm : (if a1 then pool_one.token_mint_b else pool_one.token_mint_a)
        = (if a2 then pool_two.token_mint_a else pool_two.token_mint_b))
    (hp : parse = Except.ok ())
    (h10 : l10 = Except.ok ta10) (h20 : l20 = Except.ok ta20)
    (h1 : swap_with_transfer_fee_extension (engine_one ⟨ta10, l11.toOption, l12.toOption⟩)
        (if a1 then mint_input else mint_intermediate)
        (if a1 then mint_intermediate else mint_input)
        amount true a1 = Except.ok u1) :
    (∀ engine_two engine_two' : SwapEngine,
        engine_two ⟨ta20, l21.toOption, l22.toOption⟩
            (calculate_transfer_fee_excluded_amount mint_intermediate
              (swap_calc_one_output a1 u1)) true a2
          = engine_two' ⟨ta20, l21.toOption, l22.toOption⟩
            (calculate_transfer_fee_excluded_amount mint_intermediate
              (swap_calc_one_output a1 u1)) true a2 →
        ∀ (σ : Type) (settle : PostSwapUpdate → PostSwapUpdate → Except DexError σ),
          two_hop_swap_handler settle engine_one engine_two pool_one pool_two
              mint_input mint_intermediate mint_output ts parse
              l10 l11 l12 l20 l21 l22 amount thr true a1 a2
            = two_hop_swap_handler settle engine_one engine_two' pool_one pool_two
              mint_input mint_intermediate mint_output ts parse
              l10 l11 l12 l20 l21 l22 amount thr true a1 a2)
    ∧ (∀ (engine_two : SwapEngine) (s : TwoHopSettled),
        two_hop_swap_handler
            (update_and_two_hop_swap_pool_v2 mint_input mint_intermediate mint_output a1 a2)
            engine_one engine_two pool_one pool_two
            mint_input mint_intermediate mint_output ts parse
            l10 l11 l12 l20 l21 l22 amount thr true a1 a2 = Except.ok s →
        s.vault_two_intermediate_credit
          = calculate_transfer_fee_excluded_amount mint_intermediate
              (swap_calc_one_output a1 u1)) := by
  constructor
  · intro engine_two engine_two' hagree σ settle
    have hc := two_hop_compute_eq_tail engine_one engine_two pool_one pool_two
      mint_input mint_intermediate mint_output ts parse l10 l11 l12 l20 l21 l22
      amount thr true a1 a2 ta10 ta20 hts hk hm hp h10 h20
    have hc' := two_hop_compute_eq_tail engine_one engine_two' pool_one pool_two
      mint_input mint_intermediate mint_output ts parse l10 l11 l12 l20 l21 l22
      amount thr true a1 a2 ta10 ta20 hts hk hm hp h10 h20
    have hl := two_hop_swap_legs_exact_in engine_one engine_two
      ⟨ta10, l11.toOption, l12.toOption⟩ ⟨ta20, l21.toOption, l22.toOption⟩
      mint_input mint_intermediate mint_output amount a1 a2 u1 h1
    have hl' := two_hop_swap_legs_exact_in engine_one engine_two'
      ⟨ta10, l11.toOption, l12.toOption⟩ ⟨ta20, l21.toOption, l22.toOption⟩
      mint_input mint_intermediate mint_output amount a1 a2 u1 h1
    have hw : swap_with_transfer_fee_extension
        (engine_two ⟨ta20, l21.toOption, l22.toOption⟩)
        (if a2 then mint_intermediate else mint_output)
        (if a2 then mint_output else mint_intermediate)
        (swap_calc_one_output a1 u1) true a2
        = swap_with_transfer_fee_extension
        (engine_two' ⟨ta20, l21.toOption, l22.toOption⟩)
        (if a2 then mint_intermediate else mint_output)
        (if a2 then mint_output else mint_intermediate)
        (swap_calc_one_output a1 u1) true a2 := by
      cases a2
      all_goals
        unfold swap_with_transfer_fee_extension
        simp
        rw [hagree]
    unfold two_hop_swap_handler
    rw [hc, hc', hl, hl', hw]
  · intro engine_two s h
    have hc := two_hop_compute_eq_tail engine_one engine_two pool_one pool_two
      mint_input mint_intermediate mint_output ts parse l10 l11 l12 l20 l21 l22
      amount thr true a1 a2 ta10 ta20 hts hk hm hp h10 h20
    have hl := two_hop_swap_legs_exact_in engine_one engine_two
      ⟨ta10, l11.toOption, l12.toOption⟩ ⟨ta20, l21.toOption, l22.toOption⟩
      mint_input mint_intermediate mint_output amount a1 a2 u1 h1
    unfold two_hop_swap_handler at h
    rw [hc, hl] at h
    cases hw : swap_with_transfer_fee_extension
        (engine_two ⟨ta20, l21.toOption, l22.toOption⟩)
        (if a2 then mint_intermediate else mint_output)
        (if a2 then mint_output else mint_intermediate)
        (swap_calc_one_output a1 u1) true a2 with
    | error e => rw [hw] at h; simp at h
    | ok u2 =>
      rw [hw] at h
      simp only [] at h
      cases hchk : two_hop_check_and_slippage mint_output u1 u2 thr true a1 a2 with
      | error e => rw [hchk] at h; simp at h
      | ok p =>
        rw [hchk] at h
        obtain ⟨hp', _⟩ := two_hop_check_and_slippage_ok_inv mint_output u1 u2
          thr true a1 a2 p hchk
        subst hp'
        simp only [] at h
        unfold update_and_two_hop_swap_pool_v2 at h
        simp only [Except.ok.injEq] at h
        subst h
        rfl

/-- Witness for C2: leg one outputs a gross 500 of a 1%-fee intermediate
asset; the handler's result is unchanged when the leg-two engine is replaced
by one that agrees with it only at the net amount 495, and the settled
credit to pool two's intermediate vault is exactly that net amount. -/
theorem two_hop_exact_in_feeds_net_to_leg_two_witness :
    two_hop_swap_handler (update_and_two_hop_swap_pool_v2 ⟨10, 0⟩ ⟨20, 100⟩ ⟨30, 0⟩ true true)
        (fun _ _ _ _ => Except.ok ⟨999, 500⟩) (fun _ _ _ _ => Except.ok ⟨495, 300⟩)
        ⟨1, 10, 20, 0, 0⟩ ⟨2, 20, 30, 0, 0⟩ ⟨10, 0⟩ ⟨20, 100⟩ ⟨30, 0⟩
        (Except.ok ()) (Except.ok ())
        (Except.ok ⟨0⟩) (Except.ok ⟨1⟩) (Except.ok ⟨2⟩)
        (Except.ok ⟨3⟩) (Except.ok ⟨4⟩) (Except.ok ⟨5⟩)
        1000 0 true true true
      = two_hop_swap_handler (update_and_two_hop_swap_pool_v2 ⟨10, 0⟩ ⟨20, 100⟩ ⟨30, 0⟩ true true)
        (fun _ _ _ _ => Except.ok ⟨999, 500⟩)
        (fun _ amt _ _ => if amt = 495 then Except.ok ⟨495, 300⟩ else Except.ok ⟨0, 0⟩)
        ⟨1, 10, 20, 0, 0⟩ ⟨2, 20, 30, 0, 0⟩ ⟨10, 0⟩ ⟨20, 100⟩ ⟨30, 0⟩
        (Except.ok ()) (Except.ok ())
        (Except.ok ⟨0⟩) (Except.ok ⟨1⟩) (Except.ok ⟨2⟩)
        (Except.ok ⟨3⟩) (Except.ok ⟨4⟩) (Except.ok ⟨5⟩)
        1000 0 true true true
    ∧ (⟨1000, 1000, 500, 495, 300, 300⟩ : TwoHopSettled).vault_two_intermediate_credit
        = calculate_transfer_fee_excluded_amount ⟨20, 100⟩
            (swap_calc_one_output true ⟨1000, 500⟩) := by
  have H := two_hop_exact_in_feeds_net_to_leg_two (fun _ _ _ _ => Except.ok ⟨999, 500⟩)
      ⟨1, 10, 20, 0, 0⟩ ⟨2, 20, 30, 0, 0⟩ ⟨10, 0⟩ ⟨20, 100⟩ ⟨30, 0⟩
      (Except.ok ()) (Except.ok ())
      (Except.ok ⟨0⟩) (Except.ok ⟨1⟩) (Except.ok ⟨2⟩)
      (Except.ok ⟨3⟩) (Except.ok ⟨4⟩) (Except.ok ⟨5⟩)
      1000 0 true true ⟨0⟩ ⟨3⟩ ⟨1000, 500⟩ rfl (by decide) (by decide) rfl rfl rfl rfl
  exact ⟨H.1 (fun _ _ _ _ => Except.ok ⟨495, 300⟩)
      (fun _ amt _ _ => if amt = 495 then Except.ok ⟨495, 300⟩ else Except.ok ⟨0, 0⟩) rfl
      TwoHopSettled (update_and_two_hop_swap_pool_v2 ⟨10, 0⟩ ⟨20, 100⟩ ⟨30, 0⟩ true true),
    H.2 (fun _ _ _ _ => Except.ok ⟨495, 300⟩) ⟨1000, 1000, 500, 495, 300, 300⟩ rfl⟩

/-- C3: on an exact-out two-hop route, leg two is computed first, backward
from the caller's desired output amount (the handler's outcome depends on
the leg-two engine only through its value at `(amount, exact-out)`), and —
leg two's wrapper result being `u2` — the legs computation applies leg one's
wrapper backward from the transfer-fee-excluded net of leg two's gross
input-side amount; the handler's outcome depends on the leg-one engine only
through its value at that net target. -/
theorem two_hop_exact_out_leg_two_first_net_target
    (engine_one engine_two : SwapEngine) (pool_one pool_two : Pool)
    (mint_input mint_intermediate mint_output : MintInfo)
    (ts parse : Except DexError Unit)
    (l10 l11 l12 l20 l21 l22 : Except DexError TickArray)
    (amount thr : Nat) (a1 a2 : Bool)
    (ta10 ta20 : TickArray) (u2 : PostSwapUpdate)
    (hts : ts = Except.ok ()) (hk : pool_one.key ≠ pool_two.key)
    (hm : (if a1 then pool_one.token_mint_b else pool_one.token_mint_a)
        = (if a2 then pool_two.token_mint_a else pool_two.token_mint_b))
    (hp : parse = Except.ok ())
    (h10 : l10 = Except.ok ta10) (h20 : l20 = Except.ok ta20)
    (h2 : swap_with_transfer_fee_extension (engine_two ⟨ta20, l21.toOption, l22.toOption⟩)
        (if a2 then mint_intermediate else mint_output)
        (if a2 then mint_output else mint_intermediate)
        amount false a2 = Except.ok u2) :
    (two_hop_swap_legs engine_one engine_two
        ⟨ta10, l11.toOption, l12.toOption⟩ ⟨ta20, l21.toOption, l22.toOption⟩
        mint_input mint_intermediate mint_output amount false a1 a2
      = (match swap_with_transfer_fee_extension
            (engine_one ⟨ta10, l11.toOption, l12.toOption⟩)
            (if a1 then mint_input else mint_intermediate)
            (if a1 then mint_intermediate else mint_input)
            (calculate_transfer_fee_excluded_amount mint_intermediate
              (swap_calc_two_input a2 u2)) false a1 with
        | Except.error e => Except.error e
        | Except.ok u1 => Except.ok (u1, u2)))
    ∧ (∀ engine_one' : SwapEngine,
        engine_one ⟨ta10, l11.toOption, l12.toOption⟩
            (calculate_transfer_fee_excluded_amount mint_intermediate
              (swap_calc_two_input a2 u2)) false a1
          = engine_one' ⟨ta10, l11.toOption, l12.toOption⟩
            (calculate_transfer_fee_excluded_amount mint_intermediate
              (swap_calc_two_input a2 u2)) false a1 →
        ∀ (σ : Type) (settle : PostSwapUpdate → PostSwapUpdate → Except DexError σ),
          two_hop_swap_handler settle engine_one engine_two pool_one pool_two
              mint_input mint_intermediate mint_output ts parse
              l10 l11 l12 l20 l21 l22 amount thr false a1 a2
            = two_hop_swap_handler settle engine_one' engine_two pool_one pool_two
              mint_input mint_intermediate mint_output ts parse
              l10 l11 l12 l20 l21 l22 amount thr false a1 a2)
    ∧ (∀ engine_two' : SwapEngine,
        engine_two ⟨ta20, l21.toOption, l22.toOption⟩ amount false a2
          = engine_two' ⟨ta20, l21.toOption, l22.toOption⟩ amount false a2 →
        ∀ (σ : Type) (settle : PostSwapUpdate → PostSwapUpdate → Except DexError σ),
          two_hop_swap_handler settle engine_one engine_two pool_one pool_two
              mint_input mint_intermediate mint_output ts parse
              l10 l11 l12 l20 l21 l22 amount thr false a1 a2
            = two_hop_swap_handler settle engine_one engine_two' pool_one pool_two
              mint_input mint_intermediate mint_output ts parse
              l10 l11 l12 l20 l21 l22 amount thr false a1 a2) := by
  refine ⟨two_hop_swap_legs_exact_out engine_one engine_two
      ⟨ta10, l11.toOption, l12.toOption⟩ ⟨ta20, l21.toOption, l22.toOption⟩
      mint_input mint_intermediate mint_output amount a1 a2 u2 h2, ?_, ?_⟩
  · intro engine_one' hagree σ settle
    have hc := two_hop_compute_eq_tail engine_one engine_two pool_one pool_two
      mint_input mint_intermediate mint_output ts parse l10 l11 l12 l20 l21 l22
      amount thr false a1 a2 ta10 ta20 hts hk hm hp h10 h20
    have hc' := two_hop_compute_eq_tail engine_one' engine_two pool_one pool_two
      mint_input mint_intermediate mint_output ts parse l10 l11 l12 l20 l21 l22
      amount thr false a1 a2 ta10 ta20 hts hk hm hp h10 h20
    have hl := two_hop_swap_legs_exact_out engine_one engine_two
      ⟨ta10, l11.toOption, l12.toOption⟩ ⟨ta20, l21.toOption, l22.toOption⟩
      mint_input mint_intermediate mint_output amount a1 a2 u2 h2
    have hl' := two_hop_swap_legs_exact_out engine_one' engine_two
      ⟨ta10, l11.toOption, l12.toOption⟩ ⟨ta20, l21.toOption, l22.toOption⟩
      mint_input mint_intermediate mint_output amount a1 a2 u2 h2
    have hw : swap_with_transfer_fee_extension
        (engine_one ⟨ta10, l11.toOption, l12.toOption⟩)
        (if a1 then mint_input else mint_intermediate)
        (if a1 then mint_intermediate else mint_input)
        (calculate_transfer_fee_excluded_amount mint_intermediate
          (swap_calc_two_input a2 u2)) false a1
        = swap_with_transfer_fee_extension
        (engine_one' ⟨ta10, l11.toOption, l12.toOption⟩)
        (if a1 then mint_input else mint_intermediate)
        (if a1 then mint_intermediate else mint_input)
        (calculate_transfer_fee_excluded_amount mint_intermediate
          (swap_calc_two_input a2 u2)) false a1 := by
      unfold swap_with_transfer_fee_extension
      simp only [Bool.false_eq_true, if_false]
      exact hagree
    unfold two_hop_swap_handler
    rw [hc, hc', hl, hl', hw]
  · intro engine_two' hagree σ settle
    have hc := two_hop_compute_eq_tail engine_one engine_two pool_one pool_two
      mint_input mint_intermediate mint_output ts parse l10 l11 l12 l20 l21 l22
      amount thr false a1 a2 ta10 ta20 hts hk hm hp h10 h20
    have hc' := two_hop_compute_eq_tail engine_one engine_two' pool_one pool_two
      mint_input mint_intermediate mint_output ts parse l10 l11 l12 l20 l21 l22
      amount thr false a1 a2 ta10 ta20 hts hk hm hp h10 h20
    have h2' : swap_with_transfer_fee_extension
        (engine_two' ⟨ta20, l21.toOption, l22.toOption⟩)
        (if a2 then mint_intermediate else mint_output)
        (if a2 then mint_output else mint_intermediate)
        amount false a2 = Except.ok u2 := by
      have hw2 : swap_with_transfer_fee_extension
          (engine_two' ⟨ta20, l21.toOption, l22.toOption⟩)
          (if a2 then mint_intermediate else mint_output)
          (if a2 then mint_output else mint_intermediate)
          amount false a2
          = swap_with_transfer_fee_extension
          (engine_two ⟨ta20, l21.toOption, l22.toOption⟩)
          (if a2 then mint_intermediate else mint_output)
          (if a2 then mint_output else mint_intermediate)
          amount false a2 := by
        unfold swap_with_transfer_fee_extension
        simp only [Bool.false_eq_true, if_false]
        exact hagree.symm
      rw [hw2, h2]
    have hl := two_hop_swap_legs_exact_out engine_one engine_two
      ⟨ta10, l11.toOption, l12.toOption⟩ ⟨ta20, l21.toOption, l22.toOption⟩
      mint_input mint_intermediate mint_output amount a1 a2 u2 h2
    have hl' := two_hop_swap_legs_exact_out engine_one engine_two'
      ⟨ta10, l11.toOption, l12.toOption⟩ ⟨ta20, l21.toOption, l22.toOption⟩
      mint_input mint_intermediate mint_output amount a1 a2 u2 h2'
    unfold two_hop_swap_handler
    rw [hc, hc', hl, hl']

/-- Witness for C3: exact-out for 300 units of output; leg two requires a
gross input of 500 of the 1%-fee intermediate asset, whose net is 495; the
handler's result is unchanged when the leg-one engine is replaced by one
agreeing with it only at the backward target 495. -/
theorem two_hop_exact_out_leg_two_first_net_target_witness :
    two_hop_swap_handler (update_and_two_hop_swap_pool_v2 ⟨10, 0⟩ ⟨20, 100⟩ ⟨30, 0⟩ true true)
        (fun _ amt _ _ => Except.ok ⟨1000, amt⟩) (fun _ amt _ _ => Except.ok ⟨500, amt⟩)
        ⟨1, 10, 20, 0, 0⟩ ⟨2, 20, 30, 0, 0⟩ ⟨10, 0⟩ ⟨20, 100⟩ ⟨30, 0⟩
        (Except.ok ()) (Except.ok ())
        (Except.ok ⟨0⟩) (Except.ok ⟨1⟩) (Except.ok ⟨2⟩)
        (Except.ok ⟨3⟩) (Except.ok ⟨4⟩) (Except.ok ⟨5⟩)
        300 100000 false true true
      = two_hop_swap_handler (update_and_two_hop_swap_pool_v2 ⟨10, 0⟩ ⟨20, 100⟩ ⟨30, 0⟩ true true)
        (fun _ amt _ _ => if amt = 495 then Except.ok ⟨1000, amt⟩ else Except.ok ⟨7, 7⟩)
        (fun _ amt _ _ => Except.ok ⟨500, amt⟩)
        ⟨1, 10, 20, 0, 0⟩ ⟨2, 20, 30, 0, 0⟩ ⟨10, 0⟩ ⟨20, 100⟩ ⟨30, 0⟩
        (Except.ok ()) (Except.ok ())
        (Except.ok ⟨0⟩) (Except.ok ⟨1⟩) (Except.ok ⟨2⟩)
        (Except.ok ⟨3⟩) (Except.ok ⟨4⟩) (Except.ok ⟨5⟩)
        300 100000 false true true := by
  have H := two_hop_exact_out_leg_two_first_net_target
      (fun _ amt _ _ => Except.ok ⟨1000, amt⟩) (fun _ amt _ _ => Except.ok ⟨500, amt⟩)
      ⟨1, 10, 20, 0, 0⟩ ⟨2, 20, 30, 0, 0⟩ ⟨10, 0⟩ ⟨20, 100⟩ ⟨30, 0⟩
      (Except.ok ()) (Except.ok ())
      (Except.ok ⟨0⟩) (Except.ok ⟨1⟩) (Except.ok ⟨2⟩)
      (Except.ok ⟨3⟩) (Except.ok ⟨4⟩) (Except.ok ⟨5⟩)
      300 100000 true true ⟨0⟩ ⟨3⟩ ⟨500, 300⟩
      rfl (by decide) (by decide) rfl rfl rfl rfl
  exact H.2.1 (fun _ amt _ _ => if amt = 495 then Except.ok ⟨1000, amt⟩ else Except.ok ⟨7, 7⟩)
    rfl TwoHopSettled (update_and_two_hop_swap_pool_v2 ⟨10, 0⟩ ⟨20, 100⟩ ⟨30, 0⟩ true true)

/-- C9: in both handlers a failure to load the first tick array of a
sequence aborts the whole call with that load error (given the checks that
precede the loads pass), whereas the second and third loads of each sequence
enter the computation only through `.ok()`/`Except.toOption`: the handlers'
results are invariant under replacing those loads by any loads with the same
`toOption` image, so their load failures are silently converted to absent
tick-sequence entries and do not by themselves cause an error. -/
theorem tick_array_load_failure_policy :
    (∀ (σ : Type) (settle : PostSwapUpdate → Except DexError σ) (engine : SwapEngine)
        (ts : Except DexError Unit) (l1 l2 : Except DexError TickArray)
        (amount thr : Nat) (is_input a_to_b : Bool) (e : DexError),
        ts = Except.ok () →
        swap_handler settle engine ts (Except.error e) l1 l2 amount thr is_input a_to_b
          = Except.error e)
    ∧ (∀ (σ : Type) (settle : PostSwapUpdate → Except DexError σ) (engine : SwapEngine)
        (ts : Except DexError Unit) (l0 l1 l1' l2 l2' : Except DexError TickArray)
        (amount thr : Nat) (is_input a_to_b : Bool),
        l1.toOption = l1'.toOption → l2.toOption = l2'.toOption →
        swap_handler settle engine ts l0 l1 l2 amount thr is_input a_to_b
          = swap_handler settle engine ts l0 l1' l2' amount thr is_input a_to_b)
    ∧ (∀ (σ : Type) (settle : PostSwapUpdate → PostSwapUpdate → Except DexError σ)
        (engine_one engine_two : SwapEngine) (pool_one pool_two : Pool)
        (mint_input mint_intermediate mint_output : MintInfo)
        (ts parse : Except DexError Unit)
        (l11 l12 l20 l21 l22 : Except DexError TickArray)
        (amount thr : Nat) (is_input a1 a2 : Bool) (e : DexError),
        ts = Except.ok () → pool_one.key ≠ pool_two.key →
        (if a1 then pool_one.token_mint_b else pool_one.token_mint_a)
          = (if a2 then pool_two.token_mint_a else pool_two.token_mint_b) →
        parse = Except.ok () →
        two_hop_swap_handler settle engine_one engine_two pool_one pool_two
            mint_input mint_intermediate mint_output ts parse
            (Except.error e) l11 l12 l20 l21 l22 amount thr is_input a1 a2
          = Except.error e)
    ∧ (∀ (σ : Type) (settle : PostSwapUpdate → PostSwapUpdate → Except DexError σ)
        (engine_one engine_two : SwapEngine) (pool_one pool_two : Pool)
        (mint_input mint_intermediate mint_output : MintInfo)
        (ts parse : Except DexError Unit) (ta10 : TickArray)
        (l10 l11 l12 l21 l22 : Except DexError TickArray)
        (amount thr : Nat) (is_input a1 a2 : Bool) (e : DexError),
        ts = Except.ok () → pool_one.key ≠ pool_two.key →
        (if a1 then pool_one.token_mint_b else pool_one.token_mint_a)
          = (if a2 then pool_two.token_mint_a else pool_two.token_mint_b) →
        parse = Except.ok () → l10 = Except.ok ta10 →
        two_hop_swap_handler settle engine_one engine_two pool_one pool_two
            mint_input mint_intermediate mint_output ts parse
            l10 l11 l12 (Except.error e) l21 l22 amount thr is_input a1 a2
          = Except.error e)
    ∧ (∀ (σ : Type) (settle : PostSwapUpdate → PostSwapUpdate → Except DexError σ)
        (engine_one engine_two : SwapEngine) (pool_one pool_two : Pool)
        (mint_input mint_intermediate mint_output : MintInfo)
        (ts parse : Except DexError Unit)
        (l10 l11 l11' l12 l12' l20 l21 l21' l22 l22' : Except DexError TickArray)
        (amount thr : Nat) (is_input a1 a2 : Bool),
        l11.toOption = l11'.toOption → l12.toOption = l12'.toOption →
        l21.toOption = l21'.toOption → l22.toOption = l22'.toOption →
        two_hop_swap_handler settle engine_one engine_two pool_one pool_two
            mint_input mint_intermediate mint_output ts parse
            l10 l11 l12 l20 l21 l22 amount thr is_input a1 a2
          = two_hop_swap_handler settle engine_one engine_two pool_one pool_two
            mint_input mint_intermediate mint_output ts parse
            l10 l11' l12' l20 l21' l22' amount thr is_input a1 a2) := by
  refine ⟨?_, ?_, ?_, ?_, ?_⟩
  · intro σ settle engine ts l1 l2 amount thr is_input a_to_b e hts
    subst hts
    rfl
  · intro σ settle engine ts l0 l1 l1' l2 l2' amount thr is_input a_to_b h1 h2
    unfold swap_handler swap_compute
    rw [h1, h2]
  · intro σ settle engine_one engine_two pool_one pool_two
      mint_input mint_intermediate mint_output ts parse
      l11 l12 l20 l21 l22 amount thr is_input a1 a2 e hts hk hm hp
    subst hts
    subst hp
    have hc : two_hop_swap_compute engine_one engine_two pool_one pool_two
        mint_input mint_intermediate mint_output (Except.ok ()) (Except.ok ())
        (Except.error e) l11 l12 l20 l21 l22 amount thr is_input a1 a2
        = Except.error e := by
      unfold two_hop_swap_compute
      rw [if_neg hk, if_neg (by simpa using hm)]
    unfold two_hop_swap_handler
    rw [hc]
  · intro σ settle engine_one engine_two pool_one pool_two
      mint_input mint_intermediate mint_output ts parse ta10
      l10 l11 l12 l21 l22 amount thr is_input a1 a2 e hts hk hm hp h10
    subst hts
    subst hp
    subst h10
    have hc : two_hop_swap_compute engine_one engine_two pool_one pool_two
        mint_input mint_intermediate mint_output (Except.ok ()) (Except.ok ())
        (Except.ok ta10) l11 l12 (Except.error e) l21 l22 amount thr is_input a1 a2
        = Except.error e := by
      unfold two_hop_swap_compute
      rw [if_neg hk, if_neg (by simpa using hm)]
    unfold two_hop_swap_handler
    rw [hc]
  · intro σ settle engine_one engine_two pool_one pool_two
      mint_input mint_intermediate mint_output ts parse
      l10 l11 l11' l12 l12' l20 l21 l21' l22 l22' amount thr is_input a1 a2
      h11 h12 h21 h22
    unfold two_hop_swap_handler two_hop_swap_compute
    rw [h11, h12, h21, h22]

/-- Witness for C9: with a healthy clock, checks and parse, a failing first
load aborts the single-leg handler and the two-hop handler with the load's
own error. -/
theorem tick_array_load_failure_policy_witness :
    swap_handler (fun u => Except.ok u) (fun _ _ _ _ => Except.ok ⟨1, 2⟩)
        (Except.ok ()) (Except.error (DexError.other 9))
        (Except.ok ⟨1⟩) (Except.ok ⟨2⟩) 5 0 true true
      = Except.error (DexError.other 9)
    ∧ two_hop_swap_handler (update_and_two_hop_swap_pool_v2 ⟨10, 0⟩ ⟨20, 0⟩ ⟨30, 0⟩ true true)
        (fun _ _ _ _ => Except.ok ⟨1, 2⟩) (fun _ _ _ _ => Except.ok ⟨2, 3⟩)
        ⟨1, 10, 20, 0, 0⟩ ⟨2, 20, 30, 0, 0⟩ ⟨10, 0⟩ ⟨20, 0⟩ ⟨30, 0⟩
        (Except.ok ()) (Except.ok ())
        (Except.error (DexError.other 9)) (Except.ok ⟨1⟩) (Except.ok ⟨2⟩)
        (Except.ok ⟨3⟩) (Except.ok ⟨4⟩) (Except.ok ⟨5⟩)
        100 0 true true true
      = Except.error (DexError.other 9) := by
  refine ⟨tick_array_load_failure_policy.1 PostSwapUpdate (fun u => Except.ok u)
      (fun _ _ _ _ => Except.ok ⟨1, 2⟩) (Except.ok ()) (Except.ok ⟨1⟩) (Except.ok ⟨2⟩)
      5 0 true true (DexError.other 9) rfl,
    tick_array_load_failure_policy.2.2.1 TwoHopSettled
      (update_and_two_hop_swap_pool_v2 ⟨10, 0⟩ ⟨20, 0⟩ ⟨30, 0⟩ true true)
      (fun _ _ _ _ => Except.ok ⟨1, 2⟩) (fun _ _ _ _ => Except.ok ⟨2, 3⟩)
      ⟨1, 10, 20, 0, 0⟩ ⟨2, 20, 30, 0, 0⟩ ⟨10, 0⟩ ⟨20, 0⟩ ⟨30, 0⟩
      (Except.ok ()) (Except.ok ())
      (Except.ok ⟨1⟩) (Except.ok ⟨2⟩) (Except.ok ⟨3⟩) (Except.ok ⟨4⟩) (Except.ok ⟨5⟩)
      100 0 true true true (DexError.other 9) rfl (by decide) (by decide) rfl⟩
